import Mathlib

set_option maxRecDepth 4000

/-!
Shallow embedding of the acefone webhook pipeline (src/main.py, with the
near-duplicate variant src/unnamed/part_000 where a claim cites it).

Remote collaborators (the Acefone telephony API, the Gemini generation
API and the Bitrix CRM) are modelled as an oracle environment `Env`
supplying each remote call's outcome; the handler is a pure function of
the environment and the webhook payload that returns the JSON outcome
together with the trace of remote calls it performed, in order.
Python exceptions are modelled as `Except.error`/`Outcome.crash` values
carrying the exception text.
-/

/-- One outbound remote operation performed by the pipeline, as traced
by the embedding. -/
inductive RemoteCall where
  | login
  | fetchRecords (page limit : Nat)
  | download (attempt : Nat)
  | transcribe
  | genSummarize
  | crmSearch (phone : String)
  | crmCreateLead (phone : Option String)
  | crmPostComment (entityId : Nat) (entityType : String)
deriving DecidableEq, Repr

/-- An HTTP response as seen by `download_audio`: status code and byte
payload (bytes as `Nat`s; only the length matters to the code). -/
structure HttpResp where
  status : Nat
  content : List Nat
deriving DecidableEq, Repr

/-- One record of the telephony provider's call listing, holding the
fields `src/main.py` reads off `call_data` (lines 203-207).  `call_id`
is kept as the string the code compares (`str(call.get("call_id"))`). -/
structure CallRecord where
  call_id : String
  recording_url : Option String
  client_number : Option String
  did_number : Option String
  call_duration : Option Nat
  agent_name : Option String
  date : Option String
  time : Option String
deriving DecidableEq, Repr

/-- The duplicate-search result set returned by
crm.duplicate.findbycomm: the LEAD and CONTACT id lists. -/
structure DupResult where
  leads : List Nat
  contacts : List Nat
deriving DecidableEq, Repr

/-- The webhook payload model `AcefoneWebhook` (src/main.py lines
28-33): `call_id` required, the rest defaulting to None. -/
structure AcefoneWebhook where
  call_id : String
  client_number : Option String
  did_number : Option String
  status : Option String
deriving DecidableEq, Repr

/-- JSON outcome of the handler.  `crash e` stands for a Python
exception with text `e` escaping the handler unhandled. -/
inductive Outcome where
  | http403
  | ignored
  | errorMsg (msg : String)
  | success (lead_id : Nat) (phone : Option String)
  | crash (exc : String)
deriving DecidableEq, Repr

/-- Oracle environment: configuration plus the outcome of every remote
call the pipeline may issue.  `Except.error e` means the call raised a
Python exception with text `e`. -/
structure Env where
  acfSecret : Option String
  loginResult : Except String String
  providerRecords : List CallRecord
  httpGet : Nat → HttpResp
  noneUrlMsg : String
  transcribeText : Except String String
  genSummaryText : Except String String
  crmDup : String → DupResult
  crmCreate : Option String → Except String Nat

/-- Python truthiness of an optional string: None and the empty string
are falsy. -/
def pyStrTruthy : Option String → Bool
  | none => false
  | some s => s != ""

/-- Python `a or b` on two optional strings (used for
`call_data.get("client_number") or call_data.get("did_number")`,
line 204). -/
def pyOr (a b : Option String) : Option String :=
  if pyStrTruthy a then a else b

/-- Python truthiness of an optional integer: None and 0 are falsy
(`if not entity_id`, line 225). -/
def pyIntTruthy : Option Nat → Bool
  | none => false
  | some n => n != 0

/-- Models Python str.strip() (used on Gemini response texts and on the
transcript in summarize_with_gemini): drops whitespace from both ends. -/
def pyStrip (s : String) : String :=
  ⟨((s.data.dropWhile Char.isWhitespace).reverse.dropWhile
      Char.isWhitespace).reverse⟩

/-- Models Python str.lower() (used on the event status, line 184),
character by character. -/
def pyLower (s : String) : String := ⟨s.data.map Char.toLower⟩

/-- The per-attempt acceptance test of src/main.py's download_audio
(line 64): HTTP 200 and payload strictly larger than 5000 bytes. -/
def download_accept (r : HttpResp) : Prop :=
  r.status = 200 ∧ 5000 < r.content.length

instance (r : HttpResp) : Decidable (download_accept r) := by
  unfold download_accept; exact inferInstance

/-- Result of `download_audio`: the returned bytes or the raised
exception text, plus how many GET attempts were made and how many
retry sleeps (`time.sleep(60)`, line 67) were executed. -/
structure DlOut where
  result : Except String (List Nat)
  attempts : Nat
  sleeps : Nat
deriving Repr

/-- The body of src/main.py's `for attempt in range(3)` loop (lines
62-68): `i` is the index of the next attempt, the countdown is the
number of attempts remaining.  Each failed attempt is followed by one
sleep; when the loop ends, the raised message quotes the status of the
last response (`get (i-1)`). -/
def download_go (get : Nat → HttpResp) : Nat → Nat → DlOut
  | i, 0 =>
    ⟨.error ("Failed to download audio after 3 retries (last status "
        ++ toString (get (i - 1)).status ++ ")"), 0, 0⟩
  | i, fuel + 1 =>
    let r := get i
    if download_accept r then ⟨.ok r.content, 1, 0⟩
    else
      let rest := download_go get (i + 1) fuel
      ⟨rest.result, rest.attempts + 1, rest.sleeps + 1⟩

/-- src/main.py lines 60-68: download with 3 attempts. -/
def download_audio (get : Nat → HttpResp) : DlOut :=
  download_go get 0 3

namespace Part000

/-- src/unnamed/part_000 lines 61-68: the single-attempt variant of
download_audio.  Raises on non-200 status, then raises when the
payload is strictly below 5000 bytes; otherwise returns the bytes. -/
def download_audio (r : HttpResp) : Except String (List Nat) :=
  if r.status ≠ 200 then
    .error ("Failed to download audio: " ++ toString r.status)
  else if r.content.length < 5000 then
    .error "Audio file too small or not ready."
  else
    .ok r.content

end Part000

/-- src/main.py lines 101-118: summarize_with_gemini.  Short-circuits
to the fixed sentinel when the stripped transcript is empty; otherwise
performs exactly one remote generation call, whose raised exception
(if any) propagates to the caller.  Returns the result together with
the remote calls made. -/
def summarize_with_gemini (env : Env) (transcript : String) :
    Except String String × List RemoteCall :=
  if pyStrip transcript = "" then (.ok "No transcription available.", [])
  else
    match env.genSummaryText with
    | .error e => (.error e, [.genSummarize])
    | .ok t => (.ok (pyStrip t), [.genSummarize])

/-- Exception text of the use-before-assignment at src/main.py line
230: the local `comment` is referenced there but first assigned at
line 233, so CPython raises UnboundLocalError when evaluating the
arguments of post_comment_to_entity, before any HTTP request is made. -/
def unboundCommentExc : String :=
  "UnboundLocalError: local variable 'comment' referenced before assignment"

/-- Models the telephony provider's paged call listing (GET
/v1/call/records with query parameters page and limit, §6 of the
design): the response's results field holds the `limit` records of the
requested page, in provider order. -/
def acefoneRecordsResponse (records : List CallRecord) (page limit : Nat) :
    List CallRecord :=
  (records.drop ((page - 1) * limit)).take limit

/-- src/main.py lines 47-57: fetch_call_details requests page 1 with
limit 100 and linearly scans the returned results for a record whose
call_id (as string) equals the requested one. -/
def fetch_call_details (records : List CallRecord) (call_id : String) :
    Option CallRecord :=
  (acefoneRecordsResponse records 1 100).find? (fun c => c.call_id == call_id)

/-- src/main.py lines 210-214: the try block around download and
transcription.  Any exception raised inside it is caught and replaced
by the inline marker "Transcription failed: " followed by the
exception text.  A None recording_url makes requests.get(None) raise
locally (message `env.noneUrlMsg`, supplied by the requests library)
before any HTTP call; otherwise download_audio runs its attempts, and
on success transcribe_with_gemini (lines 71-98) performs one remote
call and strips its response text. -/
def computeTranscription (env : Env) (recording_url : Option String) :
    String × List RemoteCall :=
  match recording_url with
  | none => ("Transcription failed: " ++ env.noneUrlMsg, [])
  | some _ =>
    let dl := download_audio env.httpGet
    let dlCalls := (List.range dl.attempts).map RemoteCall.download
    match dl.result with
    | .error e => ("Transcription failed: " ++ e, dlCalls)
    | .ok _audio =>
      match env.transcribeText with
      | .error e => ("Transcription failed: " ++ e, dlCalls ++ [.transcribe])
      | .ok t => (pyStrip t, dlCalls ++ [.transcribe])

/-- src/main.py lines 217-220: the try block around
summarize_with_gemini; a raised exception is replaced by the marker
"Summary failed: " followed by the exception text. -/
def computeSummary (env : Env) (transcription : String) :
    String × List RemoteCall :=
  match summarize_with_gemini env transcription with
  | (.error e, cs) => ("Summary failed: " ++ e, cs)
  | (.ok s, cs) => (s, cs)

/-- The largest element of a nonempty list, as Python's max; the []
case is never reached (the code guards with `if leads:`). -/
def pymax : List Nat → Nat
  | [] => 0
  | h :: t => t.foldl Nat.max h

/-- src/main.py lines 121-140: find_bitrix_lead_or_contact.  A falsy
phone (None or empty) returns (None, None) with no remote call; else
one duplicate-search call is made, a nonempty LEAD list wins with its
numerically largest id, then a nonempty CONTACT list, else
(None, None). -/
def find_bitrix_lead_or_contact (env : Env) (phone : Option String) :
    (Option Nat × Option String) × List RemoteCall :=
  match phone with
  | none => ((none, none), [])
  | some p =>
    if p = "" then ((none, none), [])
    else
      let res := env.crmDup p
      if res.leads ≠ [] then
        ((some (pymax res.leads), some "lead"), [.crmSearch p])
      else if res.contacts ≠ [] then
        ((some (pymax res.contacts), some "contact"), [.crmSearch p])
      else
        ((none, none), [.crmSearch p])

/-- src/main.py lines 187-242: the body of the handler after the
secret and status guards.  After a 60-second settle sleep (no remote
call) it logs in (a raised exception becomes the login error payload),
fetches call details (absence is the fatal not-found error), runs the
transcription and summary try blocks, resolves the CRM entity and
creates a lead when none was found (a create exception propagates
unhandled).  Then line 230 calls post_comment_to_entity with the local
`comment`, which is first assigned only at line 233: CPython raises
UnboundLocalError while evaluating the arguments, so no comment is
posted, lines 233-242 never run, and the exception escapes the
handler. -/
def processCall (env : Env) (payload : AcefoneWebhook) :
    Outcome × List RemoteCall :=
  match env.loginResult with
  | .error e => (.errorMsg ("Failed to login to Acefone: " ++ e), [.login])
  | .ok _token =>
    match fetch_call_details env.providerRecords payload.call_id with
    | none =>
      (.errorMsg "Call not found in Acefone records", [.login, .fetchRecords 1 100])
    | some call_data =>
      let phone := pyOr call_data.client_number call_data.did_number
      let tOut := computeTranscription env call_data.recording_url
      let sOut := computeSummary env tOut.1
      let rOut := find_bitrix_lead_or_contact env phone
      let baseCalls :=
        [RemoteCall.login, .fetchRecords 1 100] ++ tOut.2 ++ sOut.2 ++ rOut.2
      if pyIntTruthy rOut.1.1 then
        (.crash unboundCommentExc, baseCalls)
      else
        match env.crmCreate phone with
        | .error e => (.crash e, baseCalls ++ [.crmCreateLead phone])
        | .ok _newId =>
          (.crash unboundCommentExc, baseCalls ++ [.crmCreateLead phone])

/-- src/main.py lines 179-242: the webhook handler.  Line 180: when a
shared secret is configured (truthy) and the x-secret header differs,
HTTP 403 before anything else.  Lines 184-185: a truthy status other
than "completed" (case-insensitively) is acknowledged as Ignored.
Otherwise the pipeline body runs. -/
def acefone_webhook (env : Env) (payload : AcefoneWebhook)
    (x_secret : Option String) : Outcome × List RemoteCall :=
  if pyStrTruthy env.acfSecret && !(x_secret == env.acfSecret) then
    (.http403, [])
  else if (match payload.status with
           | none => false
           | some s => s != "" && pyLower s != "completed") then
    (.ignored, [])
  else
    processCall env payload

/-- Concrete oracle environment used by witnesses: no secret, login
succeeds, all remote calls succeed. -/
def envBase : Env :=
  { acfSecret := none
    loginResult := .ok "tok"
    providerRecords := []
    httpGet := fun _ => ⟨404, []⟩
    noneUrlMsg := "Invalid URL"
    transcribeText := .ok "hello there"
    genSummaryText := .ok "summary text"
    crmDup := fun _ => ⟨[], []⟩
    crmCreate := fun _ => .ok 42 }

lemma webhook_runs_body (env : Env) (payload : AcefoneWebhook)
    (x_secret : Option String)
    (hsec : pyStrTruthy env.acfSecret = false ∨ x_secret = env.acfSecret)
    (hst : payload.status = none ∨
      ∃ s, payload.status = some s ∧ pyLower s = "completed") :
    acefone_webhook env payload x_secret = processCall env payload := by
  have hguard : (pyStrTruthy env.acfSecret && !(x_secret == env.acfSecret)) = false := by
    rcases hsec with h | h <;> simp [h]
  unfold acefone_webhook
  rw [hguard]
  rcases hst with h | ⟨s, hs, hl⟩
  · simp [h]
  · simp [hs, hl]

lemma processCall_shape (env : Env) (payload : AcefoneWebhook) :
    (processCall env payload).1 ≠ .ignored ∧
    (processCall env payload).2.head? = some .login := by
  unfold processCall
  split
  · simp
  · split
    · simp
    · dsimp only
      split
      · simp
      · split <;> simp

/-- C3: a CallEvent whose (present, truthy) status is not "completed"
case-insensitively, under a passing shared-secret check, is
acknowledged as Ignored with an empty remote-call trace: no login,
record fetch, download, transcription or CRM call. -/
theorem ignored_no_remote_calls (env : Env) (payload : AcefoneWebhook)
    (x_secret : Option String) (s : String)
    (hs : payload.status = some s) (hne : s ≠ "")
    (hnc : pyLower s ≠ "completed")
    (hsec : pyStrTruthy env.acfSecret = false ∨ x_secret = env.acfSecret) :
    acefone_webhook env payload x_secret = (.ignored, []) := by
  have hguard : (pyStrTruthy env.acfSecret && !(x_secret == env.acfSecret)) = false := by
    rcases hsec with h | h <;> simp [h]
  unfold acefone_webhook
  rw [hguard]
  simp [hs, hne, hnc]

/-- Witness for C3: status "missed" is Ignored with no remote calls. -/
theorem ignored_no_remote_calls_witness :
    acefone_webhook envBase ⟨"123", none, none, some "missed"⟩ none = (.ignored, []) :=
  ignored_no_remote_calls envBase _ none "missed" rfl (by decide) (by decide)
    (Or.inl rfl)

/-- C8: when a (truthy) shared secret is configured and the request's
x-secret header does not match it, the handler answers HTTP 403 with
an empty remote-call trace, before any other processing. -/
theorem secret_mismatch_403 (env : Env) (payload : AcefoneWebhook)
    (x_secret : Option String) (s : String)
    (hsec : env.acfSecret = some s) (hne : s ≠ "")
    (hmis : x_secret ≠ some s) :
    acefone_webhook env payload x_secret = (.http403, []) := by
  have hguard : (pyStrTruthy env.acfSecret && !(x_secret == env.acfSecret)) = true := by
    simp [pyStrTruthy, hsec, hne, hmis]
  unfold acefone_webhook
  rw [hguard]
  simp

/-- Witness for C8: configured secret "sek", header "wrong" yields 403
and no remote calls. -/
theorem secret_mismatch_403_witness :
    acefone_webhook { envBase with acfSecret := some "sek" }
      ⟨"123", none, none, some "completed"⟩ (some "wrong") = (.http403, []) :=
  secret_mismatch_403 _ _ _ "sek" rfl (by decide) (by decide)

/-- C9: a CallEvent with absent (None) status, or with a status whose
lowercasing is "completed" (e.g. "Completed"), is not Ignored: under a
passing secret check the handler runs the full pipeline body, whose
remote-call trace begins with the Acefone login. -/
theorem status_none_or_completed_processed (env : Env)
    (payload : AcefoneWebhook) (x_secret : Option String)
    (hsec : pyStrTruthy env.acfSecret = false ∨ x_secret = env.acfSecret)
    (hst : payload.status = none ∨
      ∃ s, payload.status = some s ∧ pyLower s = "completed") :
    acefone_webhook env payload x_secret = processCall env payload ∧
    (acefone_webhook env payload x_secret).1 ≠ .ignored ∧
    (acefone_webhook env payload x_secret).2.head? = some .login := by
  have heq : acefone_webhook env payload x_secret = processCall env payload :=
    webhook_runs_body env payload x_secret hsec hst
  refine ⟨heq, ?_, ?_⟩
  · rw [heq]; exact (processCall_shape env payload).1
  · rw [heq]; exact (processCall_shape env payload).2

lemma foldl_max_init_le (t : List Nat) (a : Nat) : a ≤ t.foldl Nat.max a := by
  induction t generalizing a with
  | nil => simp
  | cons h tl ih => exact le_trans (Nat.le_max_left a h) (ih (Nat.max a h))

lemma foldl_max_mem_le (t : List Nat) (a : Nat) :
    ∀ x ∈ t, x ≤ t.foldl Nat.max a := by
  induction t generalizing a with
  | nil => intro x hx; cases hx
  | cons h tl ih =>
    intro x hx
    rcases List.mem_cons.mp hx with rfl | hx
    · exact le_trans (Nat.le_max_right a x) (foldl_max_init_le tl _)
    · exact ih _ x hx

lemma foldl_max_cases (t : List Nat) (a : Nat) :
    t.foldl Nat.max a = a ∨ t.foldl Nat.max a ∈ t := by
  induction t generalizing a with
  | nil => left; rfl
  | cons h tl ih =>
    rcases ih (Nat.max a h) with heq | hmem
    · rcases Nat.le_total a h with hle | hle
      · right
        have hmax : Nat.max a h = h := Nat.max_eq_right hle
        rw [List.foldl_cons, heq, hmax]
        exact List.mem_cons_self h tl
      · left
        have hmax : Nat.max a h = a := Nat.max_eq_left hle
        rw [List.foldl_cons, heq, hmax]
    · right; exact List.mem_cons_of_mem h hmem

lemma pymax_mem {l : List Nat} (hl : l ≠ []) : pymax l ∈ l := by
  match l with
  | h :: t =>
    show t.foldl Nat.max h ∈ h :: t
    rcases foldl_max_cases t h with he | hm
    · rw [he]; exact List.mem_cons_self h t
    · exact List.mem_cons_of_mem h hm

lemma le_pymax {l : List Nat} {x : Nat} (hx : x ∈ l) : x ≤ pymax l := by
  match l with
  | h :: t =>
    show x ≤ t.foldl Nat.max h
    rcases List.mem_cons.mp hx with rfl | hx
    · exact foldl_max_init_le t x
    · exact foldl_max_mem_le t h x hx

/-- C5: on a truthy phone the resolver is a deterministic tie-break
over the duplicate-search result set: a nonempty lead list wins with
the numerically largest lead id (which belongs to the list and bounds
every member), otherwise a nonempty contact list wins with its largest
id; any environment with the same search result for that phone gives
the identical answer. -/
theorem find_bitrix_tiebreak (env : Env) (p : String) (hp : p ≠ "") :
    ((env.crmDup p).leads ≠ [] →
      (find_bitrix_lead_or_contact env (some p)).1
          = (some (pymax (env.crmDup p).leads), some "lead") ∧
        pymax (env.crmDup p).leads ∈ (env.crmDup p).leads ∧
        ∀ x ∈ (env.crmDup p).leads, x ≤ pymax (env.crmDup p).leads) ∧
    ((env.crmDup p).leads = [] → (env.crmDup p).contacts ≠ [] →
      (find_bitrix_lead_or_contact env (some p)).1
          = (some (pymax (env.crmDup p).contacts), some "contact") ∧
        pymax (env.crmDup p).contacts ∈ (env.crmDup p).contacts ∧
        ∀ x ∈ (env.crmDup p).contacts, x ≤ pymax (env.crmDup p).contacts) ∧
    (∀ env2 : Env, env2.crmDup p = env.crmDup p →
      find_bitrix_lead_or_contact env2 (some p)
        = find_bitrix_lead_or_contact env (some p)) := by
  refine ⟨?_, ?_, ?_⟩
  · intro hleads
    refine ⟨?_, pymax_mem hleads, fun x hx => le_pymax hx⟩
    unfold find_bitrix_lead_or_contact
    simp [hp, hleads]
  · intro hleads hcons
    refine ⟨?_, pymax_mem hcons, fun x hx => le_pymax hx⟩
    unfold find_bitrix_lead_or_contact
    simp [hp, hleads, hcons]
  · intro env2 hsame
    simp only [find_bitrix_lead_or_contact]
    rw [hsame]

/-- Witness for C5: search result LEAD=[3,7,5], CONTACT=[2] resolves
to lead 7, the largest lead id. -/
theorem find_bitrix_tiebreak_witness :
    (find_bitrix_lead_or_contact
        { envBase with crmDup := fun _ => ⟨[3, 7, 5], [2]⟩ } (some "99")).1
      = (some 7, some "lead") := by
  have h := (find_bitrix_tiebreak
      { envBase with crmDup := fun _ => ⟨[3, 7, 5], [2]⟩ } "99"
      (by decide)).1 (by decide)
  exact h.1

/-- Counterexample for C4: a transcript that is a transcription-failure
marker is not empty, so summarize_with_gemini does not short-circuit:
it performs one remote generation call and returns the generated text,
not the "No transcription available." sentinel. -/
theorem summarize_marker_counterexample :
    (summarize_with_gemini envBase "Transcription failed: boom").2
        = [.genSummarize] ∧
    (summarize_with_gemini envBase "Transcription failed: boom").1
        ≠ .ok "No transcription available." := by
  constructor
  · decide
  · have h1 : (summarize_with_gemini envBase "Transcription failed: boom").1
        = .ok "summary text" := by rfl
    rw [h1]
    intro hcontra
    exact absurd (Except.ok.inj hcontra) (by decide)

/-- C4 (amended): summarize_with_gemini short-circuits to the fixed
sentinel with no remote call exactly when the stripped transcript is
empty; every other transcript — including a transcription-failure
marker — issues exactly one remote generation call. -/
theorem summarize_dispatch (env : Env) (t : String) :
    (pyStrip t = "" →
      summarize_with_gemini env t = (.ok "No transcription available.", [])) ∧
    (pyStrip t ≠ "" →
      (summarize_with_gemini env t).2 = [.genSummarize]) := by
  constructor
  · intro h
    unfold summarize_with_gemini
    rw [if_pos h]
  · intro h
    unfold summarize_with_gemini
    rw [if_neg h]
    cases env.genSummaryText <;> rfl

/-- Witness for C4 (amended): the empty transcript short-circuits, a
failure-marker transcript makes one generation call. -/
theorem summarize_dispatch_witness :
    summarize_with_gemini envBase "" = (.ok "No transcription available.", []) ∧
    (summarize_with_gemini envBase "Transcription failed: x").2
        = [.genSummarize] :=
  ⟨(summarize_dispatch envBase "").1 (by decide),
   (summarize_dispatch envBase "Transcription failed: x").2 (by decide)⟩

lemma part000_accepts (r : HttpResp) (hs : r.status = 200)
    (hl : 5000 ≤ r.content.length) :
    Part000.download_audio r = .ok r.content := by
  unfold Part000.download_audio
  rw [if_neg (by simp [hs]), if_neg (by omega)]

/-- Counterexample for C7: the part_000 variant of download_audio
accepts a status-200 payload of exactly 5000 bytes, although 5000 is
at (not above) the minimum-plausible-recording threshold. -/
theorem download_variant_boundary_counterexample :
    (List.replicate 5000 (0 : Nat)).length ≤ 5000 ∧
    Part000.download_audio ⟨200, List.replicate 5000 0⟩
        = .ok (List.replicate 5000 0) := by
  constructor
  · rw [List.length_replicate]
  · exact part000_accepts _ rfl (by rw [List.length_replicate])

/-- C7 (amended): src/main.py's per-attempt acceptance rejects every
payload of at most 5000 bytes regardless of status and accepts only
status-200 payloads strictly above 5000 bytes (equivalently, a
constant-response download returns the bytes iff the response is
accepted); the part_000 variant raises on non-200 status and on
payloads strictly below 5000 bytes, but accepts a status-200 payload
of exactly 5000 bytes. -/
theorem download_threshold_policy (r : HttpResp) :
    (r.content.length ≤ 5000 → ¬ download_accept r) ∧
    (download_accept r → r.status = 200 ∧ 5000 < r.content.length) ∧
    ((download_audio (fun _ => r)).result = .ok r.content ↔ download_accept r) ∧
    (r.status ≠ 200 → ∃ e, Part000.download_audio r = .error e) ∧
    (r.status = 200 → r.content.length < 5000 →
      ∃ e, Part000.download_audio r = .error e) ∧
    (r.status = 200 → 5000 ≤ r.content.length →
      Part000.download_audio r = .ok r.content) := by
  refine ⟨?_, ?_, ?_, ?_, ?_, ?_⟩
  · intro hle hacc
    exact absurd hacc.2 (by omega)
  · exact fun h => h
  · by_cases h : download_accept r
    · simp [download_audio, download_go, h]
    · simp [download_audio, download_go, h]
  · intro hs
    exact ⟨_, by unfold Part000.download_audio; rw [if_pos hs]⟩
  · intro hs hlen
    refine ⟨"Audio file too small or not ready.", ?_⟩
    unfold Part000.download_audio
    rw [if_neg (by simp [hs]), if_pos hlen]
  · intro hs hlen
    unfold Part000.download_audio
    rw [if_neg (by simp [hs]), if_neg (by omega)]

/-- Witness for C7 (amended): a 4000-byte payload is rejected by
main.py's acceptance even with status 200; part_000 rejects a 404
response; part_000 accepts a status-200 payload of exactly 5000
bytes. -/
theorem download_threshold_policy_witness :
    ¬ download_accept ⟨200, List.replicate 4000 0⟩ ∧
    (∃ e, Part000.download_audio ⟨404, List.replicate 9000 0⟩ = .error e) ∧
    Part000.download_audio ⟨200, List.replicate 5000 0⟩
        = .ok (List.replicate 5000 0) :=
  ⟨(download_threshold_policy ⟨200, List.replicate 4000 0⟩).1
     (by rw [List.length_replicate]; decide),
   (download_threshold_policy ⟨404, List.replicate 9000 0⟩).2.2.2.1 (by decide),
   (download_threshold_policy ⟨200, List.replicate 5000 0⟩).2.2.2.2.2 rfl
     (by rw [List.length_replicate])⟩

lemma download_all_fail (get : Nat → HttpResp)
    (h0 : ¬ download_accept (get 0)) (h1 : ¬ download_accept (get 1))
    (h2 : ¬ download_accept (get 2)) :
    download_audio get =
      ⟨.error ("Failed to download audio after 3 retries (last status "
          ++ toString (get 2).status ++ ")"), 3, 3⟩ := by
  simp [download_audio, download_go, h0, h1, h2]

/-- C6: the retry loop makes at most 3 attempts; when the first
acceptable response arrives on attempt k (1-indexed, k ≤ 3) the loop
returns those bytes after exactly k attempts and k-1 retry sleeps, and
when all 3 responses are unacceptable it raises the unavailability
error after 3 attempts. -/
theorem download_retry_policy (get : Nat → HttpResp) :
    (download_audio get).attempts ≤ 3 ∧
    (∀ k, 1 ≤ k → k ≤ 3 → download_accept (get (k - 1)) →
      (∀ j, j < k - 1 → ¬ download_accept (get j)) →
      (download_audio get).result = .ok (get (k - 1)).content ∧
      (download_audio get).attempts = k ∧
      (download_audio get).sleeps = k - 1) ∧
    ((∀ j, j < 3 → ¬ download_accept (get j)) →
      ∃ e, (download_audio get).result = .error e ∧
        (download_audio get).attempts = 3) := by
  refine ⟨?_, ?_, ?_⟩
  · by_cases h0 : download_accept (get 0) <;>
      by_cases h1 : download_accept (get 1) <;>
      by_cases h2 : download_accept (get 2) <;>
      simp [download_audio, download_go, h0, h1, h2]
  · intro k hk1 hk3 hacc hprev
    interval_cases k
    · simp_all [download_audio, download_go]
    · have h0 := hprev 0 (by norm_num)
      simp_all [download_audio, download_go]
    · have h0 := hprev 0 (by norm_num)
      have h1 := hprev 1 (by norm_num)
      simp_all [download_audio, download_go]
  · intro hall
    rw [download_all_fail get (hall 0 (by norm_num)) (hall 1 (by norm_num))
      (hall 2 (by norm_num))]
    exact ⟨_, rfl, rfl⟩

/-- Attempt responses of end-to-end scenario B: the recording is not
ready for the first two polls and ready on the third. -/
def getScenarioB : Nat → HttpResp :=
  fun i => if i < 2 then ⟨404, []⟩ else ⟨200, List.replicate 5001 0⟩

/-- Witness for C6 (scenario B): first acceptable response on attempt
3 yields the bytes after exactly 2 retry sleeps and 3 attempts. -/
theorem download_retry_policy_witness :
    (download_audio getScenarioB).result = .ok (getScenarioB 2).content ∧
    (download_audio getScenarioB).attempts = 3 ∧
    (download_audio getScenarioB).sleeps = 2 :=
  (download_retry_policy getScenarioB).2.1 3 (by norm_num) (by norm_num)
    (by
      refine ⟨rfl, ?_⟩
      have hc : (getScenarioB 2).content = List.replicate 5001 0 := rfl
      rw [hc, List.length_replicate]
      decide)
    (by intro j hj; interval_cases j <;> decide)

lemma pyStrip_ne_empty (s : String) (c : Char) (hc : c ∈ s.data)
    (hw : c.isWhitespace = false) : pyStrip s ≠ "" := by
  intro h
  have hdata : ((s.data.dropWhile Char.isWhitespace).reverse.dropWhile
      Char.isWhitespace).reverse = [] := congrArg String.data h
  rw [List.reverse_eq_nil_iff] at hdata
  have houter := List.dropWhile_eq_nil_iff.mp hdata
  have hcm : c ∈ s.data.dropWhile Char.isWhitespace := by
    have hsplit : c ∈ s.data.takeWhile Char.isWhitespace
        ++ s.data.dropWhile Char.isWhitespace := by
      rw [List.takeWhile_append_dropWhile]; exact hc
    rcases List.mem_append.mp hsplit with h3 | h3
    · have := List.mem_takeWhile_imp h3
      rw [hw] at this
      exact absurd this (by simp)
    · exact h3
  have := houter c (List.mem_reverse.mpr hcm)
  rw [hw] at this
  exact absurd this (by simp)

lemma marker_pyStrip_ne (e : String) :
    pyStrip ("Transcription failed: " ++ e) ≠ "" :=
  pyStrip_ne_empty _ 'T' (List.mem_append_left _ (by decide)) (by decide)

lemma computeTranscription_marker (env : Env) (url : Option String)
    (hfail : (∀ j, j < 3 → ¬ download_accept (env.httpGet j)) ∨ url = none ∨
      ∃ e0, env.transcribeText = .error e0) :
    ∃ e, (computeTranscription env url).1 = "Transcription failed: " ++ e := by
  cases url with
  | none => exact ⟨env.noneUrlMsg, rfl⟩
  | some u =>
    rcases hfail with hall | hnone | ⟨e0, he⟩
    · have hdl := download_all_fail env.httpGet (hall 0 (by norm_num))
        (hall 1 (by norm_num)) (hall 2 (by norm_num))
      exact ⟨"Failed to download audio after 3 retries (last status "
          ++ toString (env.httpGet 2).status ++ ")",
        by simp [computeTranscription, hdl]⟩
    · cases hnone
    · cases hdl : (download_audio env.httpGet).result with
      | error e1 => exact ⟨e1, by simp [computeTranscription, hdl]⟩
      | ok bytes => exact ⟨e0, by simp [computeTranscription, hdl, he]⟩

lemma computeSummary_failed (env : Env) (t e : String)
    (ht : pyStrip t ≠ "") (he : env.genSummaryText = .error e) :
    (computeSummary env t).1 = "Summary failed: " ++ e := by
  unfold computeSummary summarize_with_gemini
  rw [if_neg ht, he]

lemma computeSummary_trace (env : Env) (t : String) (ht : pyStrip t ≠ "") :
    (computeSummary env t).2 = [.genSummarize] := by
  unfold computeSummary summarize_with_gemini
  rw [if_neg ht]
  cases env.genSummaryText <;> rfl

lemma find_trace (env : Env) (p : String) (hp : p ≠ "") :
    (find_bitrix_lead_or_contact env (some p)).2 = [.crmSearch p] := by
  simp only [find_bitrix_lead_or_contact]
  rw [if_neg hp]
  split_ifs <;> rfl

lemma processCall_trace (env : Env) (payload : AcefoneWebhook) (tok : String)
    (cd : CallRecord)
    (hlogin : env.loginResult = .ok tok)
    (hfetch : fetch_call_details env.providerRecords payload.call_id = some cd) :
    ∃ tail, (processCall env payload).2
      = [RemoteCall.login, RemoteCall.fetchRecords 1 100]
          ++ (computeTranscription env cd.recording_url).2
          ++ (computeSummary env (computeTranscription env cd.recording_url).1).2
          ++ (find_bitrix_lead_or_contact env
                (pyOr cd.client_number cd.did_number)).2
          ++ tail := by
  unfold processCall
  rw [hlogin, hfetch]
  dsimp only
  by_cases h : pyIntTruthy (find_bitrix_lead_or_contact env
      (pyOr cd.client_number cd.did_number)).1.1
  · rw [if_pos h]
    exact ⟨[], by simp⟩
  · rw [if_neg h]
    cases env.crmCreate (pyOr cd.client_number cd.did_number) <;>
      exact ⟨[.crmCreateLead (pyOr cd.client_number cd.did_number)], by simp⟩

/-- C2: when login succeeds and the call record is found, a failure of
the download (all three attempts unacceptable), a missing recording
URL, or a transcription failure yields a transcript that is the
inline marker "Transcription failed: " plus the exception text, and
the pipeline still reaches the Summarizing stage (the remote
generation call appears in the trace) and the Resolving stage (the CRM
duplicate search appears in the trace); a failure in Summarizing
likewise yields the "Summary failed: " marker instead of aborting. -/
theorem degraded_content_continues (env : Env) (payload : AcefoneWebhook)
    (tok : String) (cd : CallRecord) (p : String)
    (hlogin : env.loginResult = .ok tok)
    (hfetch : fetch_call_details env.providerRecords payload.call_id = some cd)
    (hphone : pyOr cd.client_number cd.did_number = some p) (hp : p ≠ "")
    (hfail : (∀ j, j < 3 → ¬ download_accept (env.httpGet j)) ∨
      cd.recording_url = none ∨ ∃ e0, env.transcribeText = .error e0) :
    (∃ e, (computeTranscription env cd.recording_url).1
        = "Transcription failed: " ++ e) ∧
    RemoteCall.genSummarize ∈ (processCall env payload).2 ∧
    RemoteCall.crmSearch p ∈ (processCall env payload).2 ∧
    (∀ e, env.genSummaryText = .error e →
      (computeSummary env (computeTranscription env cd.recording_url).1).1
        = "Summary failed: " ++ e) := by
  obtain ⟨em, hem⟩ := computeTranscription_marker env cd.recording_url hfail
  have hne : pyStrip (computeTranscription env cd.recording_url).1 ≠ "" := by
    rw [hem]; exact marker_pyStrip_ne em
  obtain ⟨tail, htr⟩ := processCall_trace env payload tok cd hlogin hfetch
  have hs2 := computeSummary_trace env (computeTranscription env cd.recording_url).1 hne
  have hr2 : (find_bitrix_lead_or_contact env
      (pyOr cd.client_number cd.did_number)).2 = [.crmSearch p] := by
    rw [hphone]; exact find_trace env p hp
  refine ⟨⟨em, hem⟩, ?_, ?_, ?_⟩
  · rw [htr]; simp [hs2]
  · rw [htr]; simp [hr2]
  · intro e he
    exact computeSummary_failed env _ e hne he

/-- Webhook environment for the C2 witness: record found, every
download attempt returns 404, the summary generation call raises. -/
def envC2 : Env :=
  { envBase with
    providerRecords := [⟨"123", some "http-rec-url", some "+919876543210",
      none, some 42, some "Agent", some "2025-01-01", some "10:00"⟩]
    crmDup := fun _ => ⟨[5], []⟩
    genSummaryText := .error "quota exceeded" }

/-- Witness for C2: with all download attempts failing and the summary
call raising, the transcript and summary are the degraded markers and
the CRM search still happens. -/
theorem degraded_content_continues_witness :
    (∃ e, (computeTranscription envC2 (some "http-rec-url")).1
        = "Transcription failed: " ++ e) ∧
    RemoteCall.crmSearch "+919876543210"
        ∈ (processCall envC2 ⟨"123", none, none, some "completed"⟩).2 ∧
    (computeSummary envC2 (computeTranscription envC2 (some "http-rec-url")).1).1
        = "Summary failed: " ++ "quota exceeded" := by
  have h := degraded_content_continues envC2 ⟨"123", none, none, some "completed"⟩
    "tok" ⟨"123", some "http-rec-url", some "+919876543210", none, some 42,
      some "Agent", some "2025-01-01", some "10:00"⟩ "+919876543210"
    rfl rfl rfl (by decide)
    (Or.inl (by intro j hj; interval_cases j <;> decide))
  exact ⟨h.1, h.2.2.1, h.2.2.2 "quota exceeded" rfl⟩

/-- Witness for C9: an event without status and one with status
"Completed" each run the pipeline body. -/
theorem status_none_or_completed_processed_witness :
    acefone_webhook envBase ⟨"1", none, none, none⟩ none
      = processCall envBase ⟨"1", none, none, none⟩ ∧
    acefone_webhook envBase ⟨"1", none, none, some "Completed"⟩ none
      = processCall envBase ⟨"1", none, none, some "Completed"⟩ :=
  ⟨(status_none_or_completed_processed envBase _ none (Or.inl rfl)
      (Or.inl rfl)).1,
   (status_none_or_completed_processed envBase _ none (Or.inl rfl)
      (Or.inr ⟨"Completed", rfl, by decide⟩)).1⟩

/-- C10: when the guards pass and login succeeds, a call_id matching no
record of the provider's first page (page 1, limit 100) makes the
handler return the fatal "Call not found in Acefone records" error
after only the login and the single page-1/limit-100 listing request —
whatever records the provider holds beyond those first 100. -/
theorem call_not_found_first_page (env : Env) (payload : AcefoneWebhook)
    (x_secret : Option String) (tok : String)
    (hsec : pyStrTruthy env.acfSecret = false ∨ x_secret = env.acfSecret)
    (hst : payload.status = none ∨
      ∃ s, payload.status = some s ∧ pyLower s = "completed")
    (hlogin : env.loginResult = .ok tok)
    (hnot : ∀ cd ∈ acefoneRecordsResponse env.providerRecords 1 100,
      cd.call_id ≠ payload.call_id) :
    acefone_webhook env payload x_secret
      = (.errorMsg "Call not found in Acefone records",
         [.login, .fetchRecords 1 100]) := by
  rw [webhook_runs_body env payload x_secret hsec hst]
  have hfetch : fetch_call_details env.providerRecords payload.call_id = none := by
    unfold fetch_call_details
    rw [List.find?_eq_none]
    intro c hc
    simp only [beq_iff_eq]
    exact hnot c hc
  unfold processCall
  rw [hlogin, hfetch]

/-- Provider state for the C10 witness: 101 call records with ids "0"
to "100"; the target "100" is the 101st record, beyond the first
page. -/
def envC10 : Env :=
  { envBase with
    providerRecords := (List.range 101).map
      (fun i => ⟨toString i, none, none, none, none, none, none, none⟩) }

/-- Witness for C10: the call with id "100" exists at the provider but
not among the first 100 records, so the handler reports it not
found. -/
theorem call_not_found_first_page_witness :
    (∃ cd ∈ envC10.providerRecords, cd.call_id = "100") ∧
    acefone_webhook envC10 ⟨"100", none, none, some "completed"⟩ none
      = (.errorMsg "Call not found in Acefone records",
         [.login, .fetchRecords 1 100]) := by
  constructor
  · decide
  · exact call_not_found_first_page envC10 ⟨"100", none, none, some "completed"⟩
      none "tok" (Or.inl rfl) (Or.inr ⟨"completed", rfl, by decide⟩) rfl
      (by decide)

/-- Recognizer for the timeline-comment call (the only CRM-note write,
crm.timeline.comment.add). -/
def isPostComment : RemoteCall → Bool
  | .crmPostComment _ _ => true
  | _ => false

lemma computeTranscription_no_post (env : Env) (url : Option String) :
    ∀ c ∈ (computeTranscription env url).2, isPostComment c = false := by
  intro c hc
  unfold computeTranscription at hc
  cases url with
  | none => simp at hc
  | some u =>
    dsimp only at hc
    rcases hres : (download_audio env.httpGet).result with e | b <;> rw [hres] at hc
    · simp only [List.mem_map] at hc
      obtain ⟨i, _, rfl⟩ := hc
      rfl
    · rcases htt : env.transcribeText with e2 | t2 <;> rw [htt] at hc <;>
        simp only [List.mem_append, List.mem_map, List.mem_singleton] at hc <;>
        rcases hc with ⟨i, _, rfl⟩ | rfl <;> rfl

lemma computeSummary_no_post (env : Env) (t : String) :
    ∀ c ∈ (computeSummary env t).2, isPostComment c = false := by
  intro c hc
  unfold computeSummary summarize_with_gemini at hc
  by_cases h : pyStrip t = ""
  · rw [if_pos h] at hc
    simp at hc
  · rw [if_neg h] at hc
    rcases hg : env.genSummaryText with e | s <;> rw [hg] at hc <;>
      simp only [List.mem_singleton] at hc <;> subst hc <;> rfl

lemma find_no_post (env : Env) (phone : Option String) :
    ∀ c ∈ (find_bitrix_lead_or_contact env phone).2, isPostComment c = false := by
  intro c hc
  cases phone with
  | none => simp [find_bitrix_lead_or_contact] at hc
  | some p =>
    simp only [find_bitrix_lead_or_contact] at hc
    by_cases hp : p = ""
    · rw [if_pos hp] at hc
      simp at hc
    · rw [if_neg hp] at hc
      split_ifs at hc <;> simp only [List.mem_singleton] at hc <;> subst hc <;> rfl

lemma processCall_no_post (env : Env) (payload : AcefoneWebhook) :
    (∀ c ∈ (processCall env payload).2, isPostComment c = false) ∧
    (∀ i ph, (processCall env payload).1 ≠ .success i ph) := by
  unfold processCall
  split
  · constructor
    · intro c hc
      simp only [List.mem_singleton] at hc
      subst hc; rfl
    · intro i ph; simp
  · split
    · constructor
      · intro c hc
        rcases List.mem_cons.mp hc with rfl | hc
        · rfl
        · simp only [List.mem_singleton] at hc; subst hc; rfl
      · intro i ph; simp
    · dsimp only
      split
      · constructor
        · intro c hc
          simp only [List.append_assoc, List.cons_append, List.nil_append,
            List.mem_cons, List.mem_append] at hc
          rcases hc with rfl | rfl | hc | hc | hc
          · rfl
          · rfl
          · exact computeTranscription_no_post _ _ c hc
          · exact computeSummary_no_post _ _ c hc
          · exact find_no_post _ _ c hc
        · intro i ph; simp
      · split
        · constructor
          · intro c hc
            simp only [List.append_assoc, List.cons_append, List.nil_append,
              List.mem_cons, List.mem_append, List.mem_singleton,
              List.not_mem_nil, or_false] at hc
            rcases hc with rfl | rfl | hc | hc | hc | rfl
            · rfl
            · rfl
            · exact computeTranscription_no_post _ _ c hc
            · exact computeSummary_no_post _ _ c hc
            · exact find_no_post _ _ c hc
            · rfl
          · intro i ph; simp
        · constructor
          · intro c hc
            simp only [List.append_assoc, List.cons_append, List.nil_append,
              List.mem_cons, List.mem_append, List.mem_singleton,
              List.not_mem_nil, or_false] at hc
            rcases hc with rfl | rfl | hc | hc | hc | rfl
            · rfl
            · rfl
            · exact computeTranscription_no_post _ _ c hc
            · exact computeSummary_no_post _ _ c hc
            · exact find_no_post _ _ c hc
            · rfl
          · intro i ph; simp

/-- Environment exhibiting the C1 bug: record for call "123" found,
phone resolves to the existing lead 5; downloads fail (irrelevant to
the claim's path), every other remote call succeeds. -/
def envC1 : Env :=
  { envBase with
    providerRecords := [⟨"123", some "http-rec-url", some "+919876543210",
      none, some 42, some "Agent", some "2025-01-01", some "10:00"⟩]
    crmDup := fun _ => ⟨[5], []⟩ }

/-- C1 (code-bug exhibit): on a completed event whose record is found
and whose phone resolves to an existing lead, the handler does not
post a timeline note and does not return a success payload — it
crashes with the UnboundLocalError from line 230 of src/main.py
(local `comment` referenced before its assignment at line 233).  In
general no execution of the handler ever issues a timeline-comment
call or returns a success outcome. -/
theorem webhook_unbound_comment_crash :
    acefone_webhook envC1 ⟨"123", none, none, some "completed"⟩ none
      = (.crash unboundCommentExc,
         [.login, .fetchRecords 1 100, .download 0, .download 1, .download 2,
          .genSummarize, .crmSearch "+919876543210"]) ∧
    (∀ (env : Env) (payload : AcefoneWebhook) (x_secret : Option String),
      ∀ c ∈ (acefone_webhook env payload x_secret).2, isPostComment c = false) ∧
    (∀ (env : Env) (payload : AcefoneWebhook) (x_secret : Option String)
      (i : Nat) (ph : Option String),
      (acefone_webhook env payload x_secret).1 ≠ .success i ph) := by
  refine ⟨?_, ?_, ?_⟩
  · decide
  · intro env payload xs c hc
    unfold acefone_webhook at hc
    split at hc
    · simp at hc
    · split at hc
      · simp at hc
      · exact (processCall_no_post env payload).1 c hc
  · intro env payload xs i ph
    unfold acefone_webhook
    split
    · simp
    · split
      · simp
      · exact (processCall_no_post env payload).2 i ph

/-- Witness for C1's general part: a concrete run contains the login
call, which is not a timeline-comment call, and its outcome is not a
success payload. -/
theorem webhook_unbound_comment_crash_witness :
    isPostComment RemoteCall.login = false ∧
    (acefone_webhook envBase ⟨"9", none, none, none⟩ none).1
      ≠ Outcome.success 5 (some "+919876543210") :=
  ⟨webhook_unbound_comment_crash.2.1 envBase ⟨"9", none, none, none⟩ none
     RemoteCall.login (by decide),
   webhook_unbound_comment_crash.2.2 envBase ⟨"9", none, none, none⟩ none
     5 (some "+919876543210")⟩
